import Mathlib

/-!
Shallow embedding of the TTR (time-to-refresh) cache from `src/lib.rs`.

Modelling choices:
- `Instant` becomes a `Nat` time value; `Instant::now()` becomes an explicit
  `now : Nat` argument threaded through each call.  Within one `get` call the
  two `Instant::now()` reads (staleness check and stored timestamp) use the
  same `now`.
- `Duration` (the `ttl` field) becomes a `Nat`; `duration_since` saturates at
  zero exactly like `Nat` subtraction, so elapsed time is `now - timestamp`.
- `HashMap<K, (Instant, V)>` becomes a function `K → Option (Nat × V)`;
  `insert` is pointwise update, `contains_key` / `get` are `Option` tests.
- The owned `EntityFetcher` becomes a function `fetcher : K → Option V`.
- Every mutating operation additionally returns the number of Fetcher
  invocations it performed, so that "calls the Fetcher exactly once" is a
  statement about the embedding.
-/

structure TTRCache (K V : Type) where
  ttl : Nat
  cache : K → Option (Nat × V)
  fetcher : K → Option V

namespace TTRCache

variable {K V : Type} [DecidableEq K]

/-- Embeds `TTRCache::new(ttl, fetcher)`: empty map, fixed threshold,
owned fetcher. -/
def new (ttl : Nat) (fetcher : K → Option V) : TTRCache K V :=
  { ttl := ttl, cache := fun _ => none, fetcher := fetcher }

/-- Embeds `TTRCache::fetch_entity`: call the fetcher once; on `Some`,
insert `(now, entity)` for `key`; on `None`, leave the map untouched.
Second component counts Fetcher invocations (always one here). -/
def fetch_entity (c : TTRCache K V) (now : Nat) (key : K) : TTRCache K V × Nat :=
  match c.fetcher key with
  | some entity =>
      ({ c with cache := fun k => if k = key then some (now, entity) else c.cache k }, 1)
  | none => (c, 1)

/-- Embeds `TTRCache::refresh`: fetch when the key is absent, or when the
elapsed time `now - timestamp` has reached the threshold. -/
def refresh (c : TTRCache K V) (now : Nat) (key : K) : TTRCache K V × Nat :=
  match c.cache key with
  | none => fetch_entity c now key
  | some (timestamp, _) =>
      if c.ttl ≤ now - timestamp then fetch_entity c now key else (c, 0)

/-- Embeds `TTRCache::get`: refresh, then read the (possibly updated) entry.
Returns (new state, fetcher-call count, returned value). -/
def get (c : TTRCache K V) (now : Nat) (key : K) :
    TTRCache K V × Nat × Option V :=
  let r := refresh c now key
  (r.1, r.2, (r.1.cache key).map Prod.snd)

/-- Runs a sequence of `get` calls, each given as (call time, key), keeping
only the evolving cache state. -/
def runGets (c : TTRCache K V) (calls : List (Nat × K)) : TTRCache K V :=
  calls.foldl (fun s p => (get s p.1 p.2).1) c

/- Helper lemmas shared by the claim theorems. -/

lemma fetch_entity_cache_isSome (c : TTRCache K V) (now : Nat) (key k : K)
    (h : (c.cache k).isSome = true) :
    (((fetch_entity c now key).1).cache k).isSome = true := by
  unfold fetch_entity
  cases hf : c.fetcher key with
  | none => simpa using h
  | some v =>
    by_cases hk : k = key <;> simp [hk, h]

lemma get_cache_isSome (c : TTRCache K V) (now : Nat) (key k : K)
    (h : (c.cache k).isSome = true) :
    (((get c now key).1).cache k).isSome = true := by
  unfold get refresh
  cases hc : c.cache key with
  | none => simpa using fetch_entity_cache_isSome c now key k h
  | some e =>
    obtain ⟨T, v⟩ := e
    by_cases hts : c.ttl ≤ now - T
    · simpa [hts] using fetch_entity_cache_isSome c now key k h
    · simpa [hts] using h

lemma runGets_cache_isSome (c : TTRCache K V) (key : K)
    (calls : List (Nat × K)) (h : (c.cache key).isSome = true) :
    ((runGets c calls).cache key).isSome = true := by
  induction calls generalizing c with
  | nil => simpa [runGets] using h
  | cons p rest ih =>
      have hstep := get_cache_isSome c p.1 p.2 key h
      simpa [runGets, List.foldl] using ih _ hstep

lemma get_value_eq (c : TTRCache K V) (now : Nat) (key : K) :
    (get c now key).2.2 = (((get c now key).1).cache key).map Prod.snd := rfl

end TTRCache

/- Concrete instances used by the witness theorems. -/

/-- A fetcher that knows key 0 (value 43) and nothing else. -/
def fetcherA : Nat → Option Nat := fun k => if k = 0 then some 43 else none

/-- A fetcher that always fails. -/
def fetcherNone : Nat → Option Nat := fun _ => none

/-- A cache with ttl 300 holding key 0 fetched at time 10 with value 42,
over `fetcherA`. -/
def cacheA : TTRCache Nat Nat :=
  { ttl := 300, cache := fun k => if k = 0 then some (10, 42) else none,
    fetcher := fetcherA }

/-- Same populated state as `cacheA`, but over the always-failing fetcher. -/
def cacheB : TTRCache Nat Nat :=
  { ttl := 300, cache := fun k => if k = 0 then some (10, 42) else none,
    fetcher := fetcherNone }

/- Claim theorems. -/

/-- C1: for a key with an entry stored at time T, a `get` at or after
`T + threshold` invokes the Fetcher exactly once, and when the Fetcher
returns a value the entry becomes (current time, new value) — both stored
value and stored timestamp are updated — and `get` returns the new value. -/
theorem get_stale_success (c : TTRCache Nat Nat) (key T now v w : Nat)
    (hEntry : c.cache key = some (T, v))
    (hTime : T + c.ttl ≤ now)
    (hFetch : c.fetcher key = some w) :
    (TTRCache.get c now key).2.1 = 1 ∧
    ((TTRCache.get c now key).1).cache key = some (now, w) ∧
    (TTRCache.get c now key).2.2 = some w := by
  have hc : c.ttl ≤ now - T := Nat.le_sub_of_add_le (by omega)
  simp [TTRCache.get, TTRCache.refresh, TTRCache.fetch_entity, hEntry, hc, hFetch]

/-- C1 witness: cacheA holds (10, 42) for key 0 with ttl 300; at time 310
the Fetcher is called once, returns 43, and the entry becomes (310, 43). -/
theorem get_stale_success_witness :
    (TTRCache.get cacheA 310 0).2.1 = 1 ∧
    ((TTRCache.get cacheA 310 0).1).cache 0 = some (310, 43) ∧
    (TTRCache.get cacheA 310 0).2.2 = some 43 :=
  get_stale_success cacheA 0 10 310 42 43 rfl (by decide) rfl

/-- C2: for a key stored at time T, a `get` strictly before `T + threshold`
(at a call time not earlier than T) returns the stored value, makes no
Fetcher call, and leaves the whole cache state unchanged. -/
theorem get_fresh_pure (c : TTRCache Nat Nat) (key T now v : Nat)
    (hEntry : c.cache key = some (T, v))
    (hT : T ≤ now)
    (hFresh : now < T + c.ttl) :
    TTRCache.get c now key = (c, 0, some v) := by
  have hc : ¬ c.ttl ≤ now - T := by omega
  simp [TTRCache.get, TTRCache.refresh, hEntry, hc]

/-- C2 witness: at time 100 (elapsed 90 < 300) `get` on cacheA is a pure
read returning 42 with zero Fetcher calls. -/
theorem get_fresh_pure_witness :
    TTRCache.get cacheA 100 0 = (cacheA, 0, some 42) :=
  get_fresh_pure cacheA 0 10 100 42 rfl (by decide) (by decide)

/-- C3: for a key with a stale entry, if the Fetcher returns `none` the old
value is returned, the timestamp is not updated, and the whole state is
unchanged (so the next `get` retries the fetch). Exactly one Fetcher call
is made. -/
theorem get_stale_fetch_fail (c : TTRCache Nat Nat) (key T now v : Nat)
    (hEntry : c.cache key = some (T, v))
    (hStale : c.ttl ≤ now - T)
    (hFetch : c.fetcher key = none) :
    TTRCache.get c now key = (c, 1, some v) := by
  simp [TTRCache.get, TTRCache.refresh, TTRCache.fetch_entity, hEntry, hStale, hFetch]

/-- C3 witness: cacheB is stale at time 310 and its fetcher always fails;
`get` returns the old value 42 and leaves the state untouched. -/
theorem get_stale_fetch_fail_witness :
    TTRCache.get cacheB 310 0 = (cacheB, 1, some 42) :=
  get_stale_fetch_fail cacheB 0 10 310 42 rfl (by decide) rfl

/-- C4: for a key with no entry, if the Fetcher returns `none` then `get`
returns `none` and no entry is created (the state is unchanged). -/
theorem get_miss_fetch_fail (c : TTRCache Nat Nat) (key now : Nat)
    (hNone : c.cache key = none)
    (hFetch : c.fetcher key = none) :
    TTRCache.get c now key = (c, 1, none) := by
  simp [TTRCache.get, TTRCache.refresh, TTRCache.fetch_entity, hNone, hFetch]

/-- C4 witness: key 1 is absent from cacheB and its fetcher fails, so `get`
returns none and the map stays without key 1. -/
theorem get_miss_fetch_fail_witness :
    TTRCache.get cacheB 500 1 = (cacheB, 1, none) :=
  get_miss_fetch_fail cacheB 1 500 rfl rfl

/-- C5: the staleness boundary is inclusive: for a key with an entry stored
at T, `get` makes a Fetcher call exactly when the elapsed time `now - T`
is greater than or equal to the threshold. -/
theorem get_boundary_inclusive (c : TTRCache Nat Nat) (key T now v : Nat)
    (hEntry : c.cache key = some (T, v)) :
    (TTRCache.get c now key).2.1 = 1 ↔ c.ttl ≤ now - T := by
  by_cases hc : c.ttl ≤ now - T
  · cases hf : c.fetcher key with
    | none => simp [TTRCache.get, TTRCache.refresh, TTRCache.fetch_entity, hEntry, hc, hf]
    | some w => simp [TTRCache.get, TTRCache.refresh, TTRCache.fetch_entity, hEntry, hc, hf]
  · simp [TTRCache.get, TTRCache.refresh, hEntry, hc]

/-- C5 witness: at time 310 the elapsed time since 10 is exactly the
threshold 300, and `get` on cacheA does trigger a Fetcher call. -/
theorem get_boundary_inclusive_witness :
    (TTRCache.get cacheA 310 0).2.1 = 1 ↔ (300 : Nat) ≤ 310 - 10 :=
  get_boundary_inclusive cacheA 0 10 310 42 rfl

/-- C6: `get` never removes a map entry: any key present before the call is
still present after it, for every cache state, call time, looked-up key and
Fetcher behaviour. -/
theorem get_preserves_presence (c : TTRCache Nat Nat) (now key k : Nat)
    (h : (c.cache k).isSome = true) :
    (((TTRCache.get c now key).1).cache k).isSome = true :=
  TTRCache.get_cache_isSome c now key k h

/-- C6 witness: key 0 present in cacheB stays present after a `get` at
time 777 (whose fetch attempt fails). -/
theorem get_preserves_presence_witness :
    (((TTRCache.get cacheB 777 0).1).cache 0).isSome = true :=
  get_preserves_presence cacheB 777 0 0 (by decide)

/-- C7: `get` returns absence exactly when the key has no entry and the
current fetch also fails; and once a key has an entry, any sequence of
further `get` calls still leaves every later `get` on that key returning a
value (later Fetcher failures are absorbed). -/
theorem get_absence_iff_never_fetched (c : TTRCache Nat Nat) (key now : Nat) :
    ((TTRCache.get c now key).2.2 = none ↔
      c.cache key = none ∧ c.fetcher key = none) ∧
    (∀ calls : List (Nat × Nat), (c.cache key).isSome = true →
      ((TTRCache.get (TTRCache.runGets c calls) now key).2.2).isSome = true) := by
  constructor
  · cases hc : c.cache key with
    | some e =>
        obtain ⟨T, v⟩ := e
        have hpres : (((TTRCache.get c now key).1).cache key).isSome = true :=
          TTRCache.get_cache_isSome c now key key (by simp [hc])
        constructor
        · intro habs
          rw [TTRCache.get_value_eq] at habs
          cases hcc : ((TTRCache.get c now key).1).cache key with
          | none => simp [hcc] at hpres
          | some e2 => rw [hcc] at habs; simp at habs
        · rintro ⟨h1, _⟩
          simp [hc] at h1
    | none =>
        cases hf : c.fetcher key with
        | some w =>
            simp [TTRCache.get, TTRCache.refresh, TTRCache.fetch_entity, hc, hf]
        | none =>
            simp [TTRCache.get, TTRCache.refresh, TTRCache.fetch_entity, hc, hf]
  · intro calls h
    have hrun := TTRCache.runGets_cache_isSome c key calls h
    have hpres := TTRCache.get_cache_isSome (TTRCache.runGets c calls) now key key hrun
    rw [TTRCache.get_value_eq]
    simpa using hpres

/-- C7 witness: instantiated on cacheB (key 0 populated, fetcher always
failing) after two intervening `get` calls: the later `get` still returns a
value. -/
theorem get_absence_iff_never_fetched_witness :
    ((TTRCache.get (TTRCache.runGets cacheB [(20, 1), (400, 0)]) 900 0).2.2).isSome = true :=
  (get_absence_iff_never_fetched cacheB 0 900).2 [(20, 1), (400, 0)] (by decide)

/-- C8: `new(threshold, fetcher)` produces an empty mapping, and the first
`get` on any key finds no entry and makes exactly one fetch attempt. -/
theorem new_empty_cold (ttl now k : Nat) (fetcher : Nat → Option Nat) :
    (TTRCache.new ttl fetcher).cache k = none ∧
    (TTRCache.get (TTRCache.new ttl fetcher) now k).2.1 = 1 := by
  constructor
  · rfl
  · cases hf : fetcher k with
    | some w => simp [TTRCache.get, TTRCache.refresh, TTRCache.fetch_entity, TTRCache.new, hf]
    | none => simp [TTRCache.get, TTRCache.refresh, TTRCache.fetch_entity, TTRCache.new, hf]

/-- C9: for a key with no entry in the map, each `get` call makes exactly
one Fetcher call, whatever the Fetcher returns. -/
theorem get_miss_one_fetch (c : TTRCache Nat Nat) (key now : Nat)
    (hNone : c.cache key = none) :
    (TTRCache.get c now key).2.1 = 1 := by
  cases hf : c.fetcher key with
  | some w => simp [TTRCache.get, TTRCache.refresh, TTRCache.fetch_entity, hNone, hf]
  | none => simp [TTRCache.get, TTRCache.refresh, TTRCache.fetch_entity, hNone, hf]

/-- C9 witness: key 1 has no entry in cacheB; `get` at time 5 makes exactly
one Fetcher call. -/
theorem get_miss_one_fetch_witness :
    (TTRCache.get cacheB 5 1).2.1 = 1 :=
  get_miss_one_fetch cacheB 1 5 rfl

/-- C10: frame property of `get`: the entry of every key other than the one
looked up is unchanged, and the threshold and the owned Fetcher are
unchanged; only the looked-up key's entry may change. -/
theorem get_frame (c : TTRCache Nat Nat) (now key k : Nat) (hk : k ≠ key) :
    ((TTRCache.get c now key).1).cache k = c.cache k ∧
    ((TTRCache.get c now key).1).ttl = c.ttl ∧
    ((TTRCache.get c now key).1).fetcher = c.fetcher := by
  have hfe : ∀ c2 : TTRCache Nat Nat,
      ((TTRCache.fetch_entity c2 now key).1).cache k = c2.cache k ∧
      ((TTRCache.fetch_entity c2 now key).1).ttl = c2.ttl ∧
      ((TTRCache.fetch_entity c2 now key).1).fetcher = c2.fetcher := by
    intro c2
    unfold TTRCache.fetch_entity
    cases hf : c2.fetcher key with
    | some w => simp [hk]
    | none => simp
  unfold TTRCache.get TTRCache.refresh
  cases hc : c.cache key with
  | none => simpa using hfe c
  | some e =>
    obtain ⟨T, v⟩ := e
    by_cases hts : c.ttl ≤ now - T
    · simpa [hts] using hfe c
    · simp [hts]

/-- C10 witness: a `get` on key 0 of cacheA at time 310 leaves key 1's
entry, the threshold and the fetcher unchanged. -/
theorem get_frame_witness :
    ((TTRCache.get cacheA 310 0).1).cache 1 = cacheA.cache 1 ∧
    ((TTRCache.get cacheA 310 0).1).ttl = cacheA.ttl ∧
    ((TTRCache.get cacheA 310 0).1).fetcher = cacheA.fetcher :=
  get_frame cacheA 310 0 1 (by decide)
